import Mathlib

/-!
Verification of the conversational-client design of the repository
against its source (src/openai/openai_sdk_complete_guide.py and
src/openai/quick_start_examples.py).

The conversational pattern lives in `create_conversation_context`
(its inner `chat_with_context`) and in the streaming loops of
`streaming_example` and `example_7_streaming`. The remote endpoint is
external: it is modelled as an oracle parameter. Operations of the
designed ConversationClient that the source only sketches (input
validation, reset, history snapshot, streaming transcript commit) are
modelled from the specification document and marked as such.
-/

/-- Message role, the "role" field of the dicts built by the source
(values "system", "user", "assistant"). -/
inductive Role where
  | system : Role
  | user : Role
  | assistant : Role
deriving DecidableEq, Repr

/-- One conversation turn: the dict \x7b"role": r, "content": c\x7d
appended to `conversation_history` by `chat_with_context`. -/
structure Message where
  role : Role
  content : String
deriving DecidableEq, Repr

/-- Failures the remote endpoint can raise into the caller
(the SDK exceptions caught in `error_handling_example`:
network or timeout failure, and explicit rejection). -/
inductive ApiError where
  | remoteUnavailable : ApiError
  | remoteRejected : ApiError
deriving DecidableEq, Repr

/-- Observable outcome of one `chat_with_context` call: the returned or
raised value, the state of `conversation_history` afterwards, the
messages list handed to `client.chat.completions.create`, and how many
times the remote endpoint was invoked during the call. -/
structure ChatOutcome where
  result : Except ApiError String
  history : List Message
  dispatchedMessages : List Message
  remoteCalls : Nat
deriving Repr

/-- Embedding of `chat_with_context` (openai_sdk_complete_guide.py,
lines 542 to 554): append the user turn to the closed-over history,
call the endpoint with the entire history, on success append the
assistant turn and return its text; a raised SDK exception propagates,
leaving the already-appended user turn in place. The endpoint is the
oracle `remote`; it is consulted exactly once per call. -/
def chat_with_context (history : List Message) (user_message : String)
    (remote : List Message → Except ApiError String) : ChatOutcome :=
  match remote (history ++ [⟨Role.user, user_message⟩]) with
  | Except.ok assistant_message =>
      ⟨Except.ok assistant_message,
        history ++ [⟨Role.user, user_message⟩,
          ⟨Role.assistant, assistant_message⟩],
        history ++ [⟨Role.user, user_message⟩], 1⟩
  | Except.error e =>
      ⟨Except.error e, history ++ [⟨Role.user, user_message⟩],
        history ++ [⟨Role.user, user_message⟩], 1⟩

/-- One step of a call sequence: the next call supplies the user text
and the outcome the remote endpoint produces for it. -/
def callStep (h : List Message) (call : String × Except ApiError String) :
    List Message :=
  (chat_with_context h call.1 (fun _ => call.2)).history

/-- Run a sequence of `chat_with_context` calls, threading the
conversation history. -/
def runCalls (h : List Message) :
    List (String × Except ApiError String) → List Message
  | [] => h
  | c :: cs => runCalls (callStep h c) cs

/-- The messages one call contributes to the transcript: the user turn
and, on success, the assistant turn. -/
def contrib : String × Except ApiError String → List Message
  | (m, Except.ok a) => [⟨Role.user, m⟩, ⟨Role.assistant, a⟩]
  | (m, Except.error _) => [⟨Role.user, m⟩]

/-- The roles one call contributes, in order. -/
def contribRoles : String × Except ApiError String → List Role
  | (_, Except.ok _) => [Role.user, Role.assistant]
  | (_, Except.error _) => [Role.user]

/-- Whether a call result is a success. -/
def isOk : Except ApiError String → Bool
  | Except.ok _ => true
  | Except.error _ => false

/-- The "delta" object of a streaming chunk; its `content` is None for
bookkeeping chunks (role announcement, finish marker). -/
structure Delta where
  content : Option String
deriving DecidableEq, Repr

/-- The element `chunk.choices[0]` that the streaming loops read. -/
structure Choice0 where
  delta : Delta
deriving DecidableEq, Repr

/-- One chunk of the streaming response; `choices0` stands for its
`choices[0]` element. -/
structure Chunk where
  choices0 : Choice0
deriving DecidableEq, Repr

/-- Embedding of the streaming consumption loop (openai_sdk_complete_guide.py
lines 579 to 581, quick_start_examples.py lines 126 to 128): for each chunk
in the stream, if `chunk.choices[0].delta.content is not None` emit that
content; chunks whose delta content is None are skipped. The value is the
full emitted text in arrival order. -/
def streamOutput : List Chunk → String
  | [] => ""
  | c :: cs =>
      match c.choices0.delta.content with
      | some s => s ++ streamOutput cs
      | none => streamOutput cs

/-- The text fragments a stream delivers: the non-None delta contents,
in arrival order. -/
def fragments (chunks : List Chunk) : List String :=
  chunks.filterMap (fun c => c.choices0.delta.content)

/-- Concatenation of a fragment list in order. -/
def concatFragments : List String → String
  | [] => ""
  | s :: rest => s ++ concatFragments rest

/-- A chunk whose delta content is None. -/
def noneChunk : Chunk := ⟨⟨⟨none⟩⟩⟩

/-- A chunk carrying the text fragment `s`. -/
def textChunk (s : String) : Chunk := ⟨⟨⟨some s⟩⟩⟩

/-- Generation parameters recognized by the design: the keyword
arguments the source passes to `client.chat.completions.create`
(model, max_tokens, temperature, top_p, stream). -/
structure GenerationConfig where
  model : String
  max_output_tokens : Nat
  temperature : ℚ
  top_p : ℚ
  stream : Bool
deriving DecidableEq, Repr

/-- A partial GenerationConfig: each field optionally overridden. -/
structure ConfigOverride where
  model : Option String
  max_output_tokens : Option Nat
  temperature : Option ℚ
  top_p : Option ℚ
  stream : Option Bool
deriving DecidableEq, Repr

/-- Modelled from the spec: per-field merge of an override over the
default GenerationConfig, the override winning on each field it sets.
The source hard-codes its parameters at each call site; the merge is
the configuration surface the design specifies. -/
def resolveConfig (d : GenerationConfig) (o : ConfigOverride) :
    GenerationConfig :=
  ⟨o.model.getD d.model,
    o.max_output_tokens.getD d.max_output_tokens,
    o.temperature.getD d.temperature,
    o.top_p.getD d.top_p,
    o.stream.getD d.stream⟩

/-- The request dispatched to the remote endpoint: the entire message
list plus the resolved generation parameters. -/
structure Request where
  messages : List Message
  config : GenerationConfig
deriving DecidableEq, Repr

/-- The error taxonomy of the designed send operation. -/
inductive SendError where
  | invalidInput : SendError
  | remoteUnavailable : SendError
  | remoteRejected : SendError
  | streamInterrupted : SendError
deriving DecidableEq, Repr

/-- How a remote failure surfaces out of send: unchanged in kind. -/
def liftApiError : ApiError → SendError
  | ApiError.remoteUnavailable => SendError.remoteUnavailable
  | ApiError.remoteRejected => SendError.remoteRejected

/-- Observable outcome of one designed send call: the returned or
raised value, the transcript afterwards, the request dispatched to the
endpoint (none when no network call was made), and whether the remote
endpoint was invoked. -/
structure SendOutcome where
  result : Except SendError Message
  transcript : List Message
  dispatched : Option Request
  remoteInvoked : Bool
deriving Repr

/-- Modelled from the spec: the ConversationClient send operation,
whose conversational core the source only sketches in
`chat_with_context` (which performs no input validation and takes no
override). Empty user text fails with InvalidInput before any network
call, transcript unchanged. Otherwise the user turn is appended, the
request carrying the entire transcript and the resolved parameters is
dispatched once, and on success the assistant turn is appended and
returned; on failure the user turn persists and the error surfaces
without retry. -/
def ConversationClient.send (transcript : List Message)
    (defaults : GenerationConfig) (user_text : String)
    (override : ConfigOverride)
    (remote : Request → Except ApiError String) : SendOutcome :=
  if user_text = "" then
    ⟨Except.error SendError.invalidInput, transcript, none, false⟩
  else
    match remote ⟨transcript ++ [⟨Role.user, user_text⟩],
        resolveConfig defaults override⟩ with
    | Except.ok text =>
        ⟨Except.ok ⟨Role.assistant, text⟩,
          transcript ++ [⟨Role.user, user_text⟩, ⟨Role.assistant, text⟩],
          some ⟨transcript ++ [⟨Role.user, user_text⟩],
            resolveConfig defaults override⟩, true⟩
    | Except.error e =>
        ⟨Except.error (liftApiError e),
          transcript ++ [⟨Role.user, user_text⟩],
          some ⟨transcript ++ [⟨Role.user, user_text⟩],
            resolveConfig defaults override⟩, true⟩

/-- Observable outcome of one streaming send call: the transcript
afterwards, the fragments the caller received, whether the network
exchange was closed, and whether an assistant turn was committed. -/
structure StreamOutcome where
  transcript : List Message
  delivered : List String
  exchangeClosed : Bool
  assistantAppended : Bool
deriving DecidableEq, Repr

/-- Modelled from the spec: the streaming mode of send. The source
(`streaming_example`, `example_7_streaming`) consumes the stream with
the loop embedded as `streamOutput` but never commits the text to a
transcript; the design does. `chunks` is the raw chunk stream,
`consumed` how many fragments the caller consumed before stopping. If
the caller abandons the stream before exhaustion, the exchange is
closed and no assistant turn is appended; if the stream is exhausted,
the concatenated text is appended as one assistant turn. -/
def ConversationClient.sendStreaming (transcript : List Message)
    (user_text : String) (chunks : List Chunk) (consumed : Nat) :
    StreamOutcome :=
  if consumed < (fragments chunks).length then
    ⟨transcript ++ [⟨Role.user, user_text⟩],
      (fragments chunks).take consumed, true, false⟩
  else
    ⟨transcript ++ [⟨Role.user, user_text⟩,
        ⟨Role.assistant, streamOutput chunks⟩],
      fragments chunks, true, true⟩

/-- Observable outcome of reset: the transcript afterwards and whether
the remote endpoint was invoked. -/
structure ResetOutcome where
  transcript : List Message
  remoteInvoked : Bool
deriving DecidableEq, Repr

/-- Modelled from the spec: reset clears the transcript to empty and
makes no remote call. -/
def ConversationClient.reset (_transcript : List Message) : ResetOutcome :=
  ⟨[], false⟩

/-- A store of message lists indexed by reference, to model list
objects and in-place mutation: the client holds one reference, a
snapshot lives at another. -/
def Store : Type := Nat → List Message

/-- In-place mutation of the list object at reference `i`. -/
def storeWrite (s : Store) (i : Nat) (v : List Message) : Store :=
  fun j => if j = i then v else s j

/-- Modelled from the spec: history returns a snapshot copy of the
current transcript. The client transcript lives at reference `client`;
the copy is placed at the fresh reference `fresh` and that reference
is returned to the caller. -/
def ConversationClient.history (s : Store) (client : Nat) (fresh : Nat) :
    Store × Nat :=
  (storeWrite s fresh (s client), fresh)

/-- A concrete store whose every reference holds the empty list. -/
def emptyStore : Store := fun _ => []

/-- A concrete remote oracle that always fails as unavailable. -/
def remoteFailOracle : List Message → Except ApiError String :=
  fun _ => Except.error ApiError.remoteUnavailable

/-- A concrete remote oracle for designed send that always succeeds. -/
def remoteOkOracle : Request → Except ApiError String :=
  fun _ => Except.ok "ok"

/-- A concrete default configuration. -/
def defaultConfig : GenerationConfig := ⟨"gpt-4", 150, 1, 1, false⟩

/-- A concrete override setting only the model field. -/
def modelOverride : ConfigOverride := ⟨some "gpt-3.5-turbo", none, none, none, none⟩

/-- A concrete five-fragment stream, as in the abandonment scenario. -/
def fiveChunkStream : List Chunk :=
  [textChunk "a", textChunk "b", textChunk "c", textChunk "d", textChunk "e"]

/-- Number of successful calls in a call sequence. -/
def countSuccess (cs : List (String × Except ApiError String)) : Nat :=
  cs.countP (fun c => isOk c.2)

/-- Number of failed calls in a call sequence. -/
def countFailure (cs : List (String × Except ApiError String)) : Nat :=
  cs.countP (fun c => !isOk c.2)

theorem callStep_eq (h : List Message) (c : String × Except ApiError String) :
    callStep h c = h ++ contrib c := by
  rcases c with ⟨m, r⟩
  cases r with
  | ok a => simp [callStep, chat_with_context, contrib]
  | error e => simp [callStep, chat_with_context, contrib]

theorem runCalls_eq (cs : List (String × Except ApiError String)) :
    ∀ h : List Message, runCalls h cs = h ++ (cs.map contrib).flatten := by
  induction cs with
  | nil => intro h; simp [runCalls]
  | cons c cs ih =>
      intro h
      simp only [runCalls, callStep_eq, ih, List.map_cons, List.flatten_cons,
        List.append_assoc]

theorem streamOutput_eq_concat (chunks : List Chunk) :
    streamOutput chunks = concatFragments (fragments chunks) := by
  induction chunks with
  | nil => rfl
  | cons c cs ih =>
      cases h : c.choices0.delta.content with
      | none =>
          rw [show streamOutput (c :: cs) = streamOutput cs by
            simp [streamOutput, h]]
          rw [show fragments (c :: cs) = fragments cs by
            simp [fragments, List.filterMap_cons, h]]
          exact ih
      | some s =>
          rw [show streamOutput (c :: cs) = s ++ streamOutput cs by
            simp [streamOutput, h]]
          rw [show fragments (c :: cs) = s :: fragments cs by
            simp [fragments, List.filterMap_cons, h]]
          rw [ih]
          rfl

theorem contrib_map_role (c : String × Except ApiError String) :
    (contrib c).map Message.role = contribRoles c := by
  rcases c with ⟨m, r⟩
  cases r <;> rfl

theorem countSuccess_cons_ok (m a : String)
    (cs : List (String × Except ApiError String)) :
    countSuccess ((m, Except.ok a) :: cs) = countSuccess cs + 1 := by
  simp [countSuccess, List.countP_cons, isOk]

theorem countFailure_cons_ok (m a : String)
    (cs : List (String × Except ApiError String)) :
    countFailure ((m, Except.ok a) :: cs) = countFailure cs := by
  simp [countFailure, List.countP_cons, isOk]

theorem countSuccess_cons_error (m : String) (e : ApiError)
    (cs : List (String × Except ApiError String)) :
    countSuccess ((m, Except.error e) :: cs) = countSuccess cs := by
  simp [countSuccess, List.countP_cons, isOk]

theorem countFailure_cons_error (m : String) (e : ApiError)
    (cs : List (String × Except ApiError String)) :
    countFailure ((m, Except.error e) :: cs) = countFailure cs + 1 := by
  simp [countFailure, List.countP_cons, isOk]

theorem flatten_contrib_length (cs : List (String × Except ApiError String)) :
    ((cs.map contrib).flatten).length
      = 2 * countSuccess cs + countFailure cs := by
  induction cs with
  | nil => rfl
  | cons c cs ih =>
      rcases c with ⟨m, r⟩
      cases r with
      | ok a =>
          rw [List.map_cons, List.flatten_cons, List.length_append, ih,
            countSuccess_cons_ok, countFailure_cons_ok]
          rw [show (contrib (m, Except.ok a)).length = 2 from rfl]
          omega
      | error e =>
          rw [List.map_cons, List.flatten_cons, List.length_append, ih,
            countSuccess_cons_error, countFailure_cons_error]
          rw [show (contrib (m, Except.error e)).length = 1 from rfl]
          omega

theorem flatten_contrib_roles (cs : List (String × Except ApiError String)) :
    ((cs.map contrib).flatten).map Message.role
      = (cs.map contribRoles).flatten := by
  induction cs with
  | nil => rfl
  | cons c cs ih =>
      simp only [List.map_cons, List.flatten_cons, List.map_append, ih]
      rw [contrib_map_role]

/-- Claim C1: over any sequence of chat_with_context calls starting
from the empty history, the final history length is two per successful
call plus one per failed call, and the roles appear as, per call in
call order, a user turn followed on success by an assistant turn. -/
theorem claim_C1_transcript_length_and_roles
    (cs : List (String × Except ApiError String)) :
    (runCalls [] cs).length = 2 * countSuccess cs + countFailure cs
    ∧ (runCalls [] cs).map Message.role = (cs.map contribRoles).flatten := by
  rw [runCalls_eq, List.nil_append]
  exact ⟨flatten_contrib_length cs, flatten_contrib_roles cs⟩

/-- Claim C2: send with empty user text fails with InvalidInput, makes
no network call (nothing dispatched, remote not invoked), and leaves
the transcript unchanged. -/
theorem claim_C2_empty_input_rejected (st : List Message)
    (cfg : GenerationConfig) (o : ConfigOverride)
    (remote : Request → Except ApiError String) :
    ConversationClient.send st cfg "" o remote
      = ⟨Except.error SendError.invalidInput, st, none, false⟩ := by
  simp [ConversationClient.send]

/-- Claim C3: a streaming send whose fragment sequence is consumed to
exhaustion appends exactly one assistant turn whose content is the
concatenation, in arrival order, of all fragments delivered by the
call, and that turn follows the user turn at the end of the resulting
transcript. -/
theorem claim_C3_stream_roundtrip (st : List Message) (text : String)
    (chunks : List Chunk) :
    (ConversationClient.sendStreaming st text chunks
        (fragments chunks).length).transcript
      = st ++ [⟨Role.user, text⟩,
          ⟨Role.assistant, concatFragments (fragments chunks)⟩]
    ∧ (ConversationClient.sendStreaming st text chunks
        (fragments chunks).length).delivered = fragments chunks
    ∧ (ConversationClient.sendStreaming st text chunks
        (fragments chunks).length).assistantAppended = true := by
  rw [show ConversationClient.sendStreaming st text chunks
      (fragments chunks).length
    = ⟨st ++ [⟨Role.user, text⟩, ⟨Role.assistant, streamOutput chunks⟩],
        fragments chunks, true, true⟩ by
      unfold ConversationClient.sendStreaming
      rw [if_neg (lt_irrefl (fragments chunks).length)]]
  exact ⟨by rw [streamOutput_eq_concat], rfl, rfl⟩

/-- Claim C4: when the remote endpoint fails, chat_with_context leaves
the appended user turn in the history, appends no assistant turn,
surfaces the same error to the caller, and has invoked the endpoint
exactly once (no silent retry). -/
theorem claim_C4_failure_keeps_user_turn (st : List Message)
    (m : String) (e : ApiError)
    (remote : List Message → Except ApiError String)
    (h : remote (st ++ [⟨Role.user, m⟩]) = Except.error e) :
    (chat_with_context st m remote).result = Except.error e
    ∧ (chat_with_context st m remote).history = st ++ [⟨Role.user, m⟩]
    ∧ (chat_with_context st m remote).remoteCalls = 1 := by
  unfold chat_with_context
  rw [h]
  exact ⟨rfl, rfl, rfl⟩

theorem claim_C4_witness :
    (chat_with_context [] "X" remoteFailOracle).result
        = Except.error ApiError.remoteUnavailable
    ∧ (chat_with_context [] "X" remoteFailOracle).history
        = [⟨Role.user, "X"⟩]
    ∧ (chat_with_context [] "X" remoteFailOracle).remoteCalls = 1 := by
  have h := claim_C4_failure_keeps_user_turn []
    "X" ApiError.remoteUnavailable remoteFailOracle rfl
  simpa using h

/-- Claim C5: a send with nonempty text dispatches one request carrying
the entire transcript with the new user turn appended, in order,
together with the per-field merge of the override over the defaults
(the override wins on each field it sets, the default fills the rest,
and the empty override resolves to the defaults); the source
`chat_with_context` likewise hands the complete history to the
endpoint. -/
theorem claim_C5_request_contents (st : List Message)
    (cfg : GenerationConfig) (o : ConfigOverride) (text : String)
    (remote : Request → Except ApiError String)
    (remoteM : List Message → Except ApiError String)
    (h : text ≠ "") :
    (ConversationClient.send st cfg text o remote).dispatched
      = some ⟨st ++ [⟨Role.user, text⟩], resolveConfig cfg o⟩
    ∧ (chat_with_context st text remoteM).dispatchedMessages
      = st ++ [⟨Role.user, text⟩]
    ∧ (resolveConfig cfg o).model = o.model.getD cfg.model
    ∧ (resolveConfig cfg o).max_output_tokens
      = o.max_output_tokens.getD cfg.max_output_tokens
    ∧ (resolveConfig cfg o).temperature = o.temperature.getD cfg.temperature
    ∧ (resolveConfig cfg o).top_p = o.top_p.getD cfg.top_p
    ∧ (resolveConfig cfg o).stream = o.stream.getD cfg.stream
    ∧ resolveConfig cfg ⟨none, none, none, none, none⟩ = cfg := by
  refine ⟨?_, ?_, rfl, rfl, rfl, rfl, rfl, rfl⟩
  · unfold ConversationClient.send
    rw [if_neg h]
    cases remote ⟨st ++ [⟨Role.user, text⟩], resolveConfig cfg o⟩ <;> rfl
  · unfold chat_with_context
    cases remoteM (st ++ [⟨Role.user, text⟩]) <;> rfl

theorem claim_C5_witness :
    (ConversationClient.send [] defaultConfig "hi" modelOverride
        remoteOkOracle).dispatched
      = some ⟨[] ++ [⟨Role.user, "hi"⟩],
          resolveConfig defaultConfig modelOverride⟩
    ∧ (chat_with_context [] "hi" remoteFailOracle).dispatchedMessages
      = [] ++ [⟨Role.user, "hi"⟩]
    ∧ (resolveConfig defaultConfig modelOverride).model
      = modelOverride.model.getD defaultConfig.model
    ∧ (resolveConfig defaultConfig modelOverride).max_output_tokens
      = modelOverride.max_output_tokens.getD defaultConfig.max_output_tokens
    ∧ (resolveConfig defaultConfig modelOverride).temperature
      = modelOverride.temperature.getD defaultConfig.temperature
    ∧ (resolveConfig defaultConfig modelOverride).top_p
      = modelOverride.top_p.getD defaultConfig.top_p
    ∧ (resolveConfig defaultConfig modelOverride).stream
      = modelOverride.stream.getD defaultConfig.stream
    ∧ resolveConfig defaultConfig ⟨none, none, none, none, none⟩
      = defaultConfig :=
  claim_C5_request_contents [] defaultConfig modelOverride "hi"
    remoteOkOracle remoteFailOracle (by decide)

/-- Claim C6: each client operation either leaves the transcript
unchanged or appends at its end, so the prior transcript is a prefix of
the new one: shown for chat_with_context (either remote outcome), for
the designed send (validation failure, remote failure or success), and
for the streaming send (abandoned or exhausted). -/
theorem claim_C6_monotone_transcript (st : List Message) (m text : String)
    (cfg : GenerationConfig) (o : ConfigOverride)
    (remoteM : List Message → Except ApiError String)
    (remote : Request → Except ApiError String)
    (chunks : List Chunk) (consumed : Nat) :
    st <+: (chat_with_context st m remoteM).history
    ∧ st <+: (ConversationClient.send st cfg text o remote).transcript
    ∧ st <+: (ConversationClient.sendStreaming st text chunks
        consumed).transcript := by
  refine ⟨?_, ?_, ?_⟩
  · unfold chat_with_context
    cases remoteM (st ++ [⟨Role.user, m⟩]) <;>
      exact List.prefix_append st _
  · unfold ConversationClient.send
    by_cases h : text = ""
    · rw [if_pos h]
    · rw [if_neg h]
      cases remote ⟨st ++ [⟨Role.user, text⟩], resolveConfig cfg o⟩ <;>
        exact List.prefix_append st _
  · unfold ConversationClient.sendStreaming
    by_cases h : consumed < (fragments chunks).length
    · rw [if_pos h]
      exact List.prefix_append st _
    · rw [if_neg h]
      exact List.prefix_append st _

/-- Claim C7: reset clears the transcript to empty, makes no remote
call, and is idempotent: applied twice in a row it yields the empty
transcript both times, and resetting a reset client equals a single
reset. -/
theorem claim_C7_reset_idempotent (st : List Message) :
    (ConversationClient.reset st).transcript = []
    ∧ (ConversationClient.reset st).remoteInvoked = false
    ∧ ConversationClient.reset (ConversationClient.reset st).transcript
      = ConversationClient.reset st
    ∧ (ConversationClient.reset
        (ConversationClient.reset st).transcript).transcript = [] :=
  ⟨rfl, rfl, rfl, rfl⟩

/-- Claim C8: history places a snapshot equal to the transcript at call
time at a fresh reference and returns that reference; the call leaves
the client reference untouched, and mutating the snapshot in place
afterwards leaves the transcript at the client reference unchanged. -/
theorem claim_C8_history_snapshot (s : Store) (client fresh : Nat)
    (v : List Message) (h : fresh ≠ client) :
    (ConversationClient.history s client fresh).1
      (ConversationClient.history s client fresh).2 = s client
    ∧ (ConversationClient.history s client fresh).1 client = s client
    ∧ storeWrite (ConversationClient.history s client fresh).1
        (ConversationClient.history s client fresh).2 v client
      = s client := by
  refine ⟨?_, ?_, ?_⟩ <;>
    simp [ConversationClient.history, storeWrite, h, Ne.symm h]

theorem claim_C8_witness :
    (ConversationClient.history emptyStore 0 1).1
      (ConversationClient.history emptyStore 0 1).2 = emptyStore 0
    ∧ (ConversationClient.history emptyStore 0 1).1 0 = emptyStore 0
    ∧ storeWrite (ConversationClient.history emptyStore 0 1).1
        (ConversationClient.history emptyStore 0 1).2
        [⟨Role.user, "x"⟩] 0
      = emptyStore 0 :=
  claim_C8_history_snapshot emptyStore 0 1 [⟨Role.user, "x"⟩] (by decide)

/-- Claim C9: a streaming send abandoned before the fragment sequence
is exhausted appends no assistant turn (the transcript holds only the
user turn beyond its previous contents), closes the exchange, and
delivered exactly the consumed fragments. -/
theorem claim_C9_abandoned_stream (st : List Message) (text : String)
    (chunks : List Chunk) (consumed : Nat)
    (h : consumed < (fragments chunks).length) :
    (ConversationClient.sendStreaming st text chunks consumed).transcript
      = st ++ [⟨Role.user, text⟩]
    ∧ (ConversationClient.sendStreaming st text chunks
        consumed).assistantAppended = false
    ∧ (ConversationClient.sendStreaming st text chunks
        consumed).exchangeClosed = true
    ∧ (ConversationClient.sendStreaming st text chunks consumed).delivered
      = (fragments chunks).take consumed := by
  unfold ConversationClient.sendStreaming
  rw [if_pos h]
  exact ⟨rfl, rfl, rfl, rfl⟩

theorem claim_C9_witness :
    (ConversationClient.sendStreaming [] "p" fiveChunkStream 2).transcript
      = [] ++ [⟨Role.user, "p"⟩]
    ∧ (ConversationClient.sendStreaming [] "p" fiveChunkStream
        2).assistantAppended = false
    ∧ (ConversationClient.sendStreaming [] "p" fiveChunkStream
        2).exchangeClosed = true
    ∧ (ConversationClient.sendStreaming [] "p" fiveChunkStream 2).delivered
      = (fragments fiveChunkStream).take 2 :=
  claim_C9_abandoned_stream [] "p" fiveChunkStream 2 (by decide)

/-- Claim C10: the streaming loop emits the in-order concatenation of
exactly the non-None delta contents; a chunk whose delta content is
None contributes nothing to the output and to the fragment list. -/
theorem claim_C10_none_chunks_skipped (chunks cs : List Chunk) :
    streamOutput chunks = concatFragments (fragments chunks)
    ∧ streamOutput (noneChunk :: cs) = streamOutput cs
    ∧ fragments (noneChunk :: cs) = fragments cs :=
  ⟨streamOutput_eq_concat chunks, rfl, rfl⟩
